import Mathlib

/-!
Shallow embedding of the cart / checkout / admin logic of the bakery
delivery frontend (`frontend/src/pages/ProductsPage.tsx` and
`frontend/src/pages/AdminDashboard.tsx`), together with theorems settling
the specification claims about it.

Prices are JavaScript numbers used for currency arithmetic; they are
modelled as rationals.  Quantities are JavaScript integers, modelled as
`Int` (the quantity handed to `handleUpdateCartQuantity` can be `0` or
negative).  Stock quantities are non-negative integers (`Nat`).
-/

/-- A product as used by `ProductsPage.tsx` (the fields the cart and
checkout logic reads: id, name, price, stock_quantity, is_available). -/
structure Product where
  id : Nat
  name : String
  price : ℚ
  stock_quantity : Nat
  is_available : Bool
  deriving Repr, DecidableEq

/-- A cart line: the anonymous `{ product: Product; quantity: number }`
record of the `cart` state in `ProductsPage.tsx`. -/
structure CartLine where
  product : Product
  quantity : Int
  deriving Repr, DecidableEq

/-- The cart is the `cart` React state: an array of lines. -/
abbrev Cart := List CartLine

/-- `addToCartMutation.mutationFn`: if a line for the product's id exists,
map over the cart incrementing the matching line's quantity by 1;
otherwise append a new line with quantity 1. -/
def addToCartMutation (product : Product) (prevCart : Cart) : Cart :=
  match prevCart.find? (fun item => item.product.id == product.id) with
  | some _ =>
      prevCart.map (fun item =>
        if item.product.id == product.id then
          { item with quantity := item.quantity + 1 }
        else item)
  | none => prevCart ++ [{ product := product, quantity := 1 }]

/-- `handleAddToCart`: runs the add-to-cart mutation only when
`product.stock_quantity > 0`; otherwise it only shows an error toast and
the cart is untouched. -/
def handleAddToCart (product : Product) (cart : Cart) : Cart :=
  if 0 < product.stock_quantity then addToCartMutation product cart else cart

/-- `handleRemoveFromCart`: filter out every line whose product id matches. -/
def handleRemoveFromCart (productId : Nat) (cart : Cart) : Cart :=
  cart.filter (fun item => item.product.id != productId)

/-- `handleUpdateCartQuantity`: quantities below 1 remove the line;
otherwise the matching line's quantity is replaced by `newQuantity`
(no clamping against `stock_quantity` happens here). -/
def handleUpdateCartQuantity (productId : Nat) (newQuantity : Int)
    (cart : Cart) : Cart :=
  if newQuantity < 1 then handleRemoveFromCart productId cart
  else
    cart.map (fun item =>
      if item.product.id == productId then
        { item with quantity := newQuantity }
      else item)

/-- `calculateCartTotal`: `cart.reduce((total, item) => total +
item.product.price * item.quantity, 0)`. -/
def calculateCartTotal (cart : Cart) : ℚ :=
  cart.foldl (fun total item => total + item.product.price * item.quantity) 0

/-- The fixed delivery fee rendered in the order summary (`₱50.00`). -/
def deliveryFee : ℚ := 50

/-- The tax line rendered in the order summary:
`calculateCartTotal() * 0.12`. -/
def displayedTax (cart : Cart) : ℚ := calculateCartTotal cart * 0.12

/-- The total rendered in the order summary:
`calculateCartTotal() + 50 + calculateCartTotal() * 0.12`. -/
def displayedTotal (cart : Cart) : ℚ :=
  calculateCartTotal cart + 50 + calculateCartTotal cart * 0.12

/-- One `{product_name, quantity}` item of the order creation request,
as built in `checkoutMutation.mutationFn`. -/
structure OrderItem where
  product_name : String
  quantity : Int
  deriving Repr, DecidableEq

/-- The delivery details collected by the checkout form. -/
structure CheckoutFormData where
  delivery_address : String
  delivery_instructions : Option String
  deriving Repr, DecidableEq

/-- The request handed to `apiService.createOrder`:
`{...orderData, items}`. -/
structure OrderRequest where
  delivery_address : String
  delivery_instructions : Option String
  items : List OrderItem
  deriving Repr, DecidableEq

/-- The client state the checkout flow reads and writes: the cart, the
cart dialog visibility (`showCart`), whether the cached order list is
still valid (`invalidateQueries` on the `orders` key marks it stale), and
the checkout form contents (`resetCheckout` restores the defaults). -/
structure ClientState where
  cart : Cart
  showCart : Bool
  ordersCacheValid : Bool
  checkoutForm : CheckoutFormData
  deriving Repr, DecidableEq

/-- The backing service's response to `createOrder`: success, or failure
carrying the error's message string. -/
inductive ApiOutcome where
  | success : ApiOutcome
  | failure (message : String) : ApiOutcome
  deriving Repr, DecidableEq

/-- The observable result of a checkout attempt: the new client state,
the request sent to `apiService.createOrder` (`none` when the backing
service was never contacted), and the toasts shown to the user. -/
structure CheckoutResult where
  state : ClientState
  sent : Option OrderRequest
  toasts : List String
  deriving Repr, DecidableEq

/-- The items of the order request: `cart.map(item => ({ product_name:
item.product.name, quantity: item.quantity }))`. -/
def checkoutItems (cart : Cart) : List OrderItem :=
  cart.map (fun item => { product_name := item.product.name, quantity := item.quantity })

/-- `checkoutMutation`: always calls `apiService.createOrder` with the
form data plus the items built from the current cart.  `onSuccess`
invalidates the `orders` cache, toasts, empties the cart, closes the cart
dialog and resets the checkout form; `onError` only toasts
`error.message || 'Failed to place order'` (JavaScript `||`: the fallback
text is used when the message is the empty string). -/
def checkoutMutation (orderData : CheckoutFormData) (outcome : ApiOutcome)
    (s : ClientState) : CheckoutResult :=
  let req : OrderRequest :=
    { delivery_address := orderData.delivery_address
      delivery_instructions := orderData.delivery_instructions
      items := checkoutItems s.cart }
  match outcome with
  | .success =>
      { state :=
          { cart := []
            showCart := false
            ordersCacheValid := false
            checkoutForm := { delivery_address := "", delivery_instructions := none } }
        sent := some req
        toasts := ["Order placed successfully!"] }
  | .failure message =>
      { state := s
        sent := some req
        toasts := [if message = "" then "Failed to place order" else message] }

/-- `handleCheckout`: when the cart is empty, toast `Your cart is empty`
and return without mutating; otherwise run the checkout mutation. -/
def handleCheckout (data : CheckoutFormData) (outcome : ApiOutcome)
    (s : ClientState) : CheckoutResult :=
  if s.cart.length = 0 then
    { state := s, sent := none, toasts := ["Your cart is empty"] }
  else checkoutMutation data outcome s

/-- A user record as handled by `AdminDashboard.tsx`. -/
structure User where
  id : Nat
  full_name : String
  email : String
  username : String
  phone : Option String
  address : Option String
  role : String
  is_active : Bool
  deriving Repr, DecidableEq

/-- A partial user update (`Partial<User>` restricted to the fields the
dashboard ever sends): `none` means the field is absent from the patch. -/
structure UserPatch where
  full_name : Option String
  email : Option String
  username : Option String
  phone : Option (Option String)
  address : Option (Option String)
  role : Option String
  is_active : Option Bool
  deriving Repr, DecidableEq

/-- Modelled from the spec: the backing service's `updateUser(id,
partialData)` is a partial-field update — each field present in the patch
replaces the stored field, absent fields are left unchanged (the backend
is not part of this repository snapshot). -/
def applyUserPatch (patch : UserPatch) (u : User) : User :=
  { id := u.id
    full_name := patch.full_name.getD u.full_name
    email := patch.email.getD u.email
    username := patch.username.getD u.username
    phone := patch.phone.getD u.phone
    address := patch.address.getD u.address
    role := patch.role.getD u.role
    is_active := patch.is_active.getD u.is_active }

/-- Modelled from the spec: the backing service's `deactivateUser(id)`
sets the user's active flag to false (the backend is not part of this
repository snapshot). -/
def deactivateUser (u : User) : User := { u with is_active := false }

/-- The payload `handleActivateUser` sends through `updateUser`:
`userData: { is_active: true }` — only the active flag, nothing else. -/
def activateUserPayload : UserPatch :=
  { full_name := none
    email := none
    username := none
    phone := none
    address := none
    role := none
    is_active := some true }

/-- `handleActivateUser` as it affects the stored user: the partial
update carrying only `is_active: true` is applied to the record. -/
def handleActivateUser (u : User) : User := applyUserPatch activateUserPayload u

/-- The product-form fields collected by the create-product dialog. -/
structure ProductFormData where
  name : String
  description : String
  price : ℚ
  image_url : String
  stock_quantity : Nat
  category_name : String
  deriving Repr, DecidableEq

/-- The payload `handleCreateProduct` sends to `createProduct`:
`{...data, baker_email}`. -/
structure ProductCreateRequest where
  data : ProductFormData
  baker_email : String
  deriving Repr, DecidableEq

/-- The baker email chosen by `handleCreateProduct`:
`user?.email || 'default@baker.com'` — the sentinel is used when there is
no authenticated user, and also (JavaScript `||`) when the authenticated
user's email is the empty string. -/
def bakerEmailFor (user : Option User) : String :=
  match user with
  | none => "default@baker.com"
  | some u => if u.email = "" then "default@baker.com" else u.email

/-- `handleCreateProduct`: always builds and submits a creation request;
there is no rejection path for missing authentication. -/
def handleCreateProduct (user : Option User) (data : ProductFormData) :
    ProductCreateRequest :=
  { data := data, baker_email := bakerEmailFor user }

/-- The four cart operations, for stating preservation over arbitrary
operation sequences.  `clear` is the `setCart([])` performed by the
checkout mutation's success handler. -/
inductive CartOp where
  | add (p : Product)
  | update (productId : Nat) (newQuantity : Int)
  | remove (productId : Nat)
  | clear
  deriving Repr, DecidableEq

/-- Apply one cart operation. -/
def applyCartOp (cart : Cart) (op : CartOp) : Cart :=
  match op with
  | .add p => handleAddToCart p cart
  | .update productId newQuantity => handleUpdateCartQuantity productId newQuantity cart
  | .remove productId => handleRemoveFromCart productId cart
  | .clear => []

/-- Apply a sequence of cart operations, oldest first. -/
def applyCartOps (cart : Cart) (ops : List CartOp) : Cart :=
  ops.foldl applyCartOp cart

/-- The invariant claimed by the spec for cart lines: quantity at least 1
and at most the product's stock. -/
def cartInvariant (cart : Cart) : Prop :=
  ∀ item ∈ cart, 1 ≤ item.quantity ∧ item.quantity ≤ (item.product.stock_quantity : Int)

instance (cart : Cart) : Decidable (cartInvariant cart) := by
  unfold cartInvariant; infer_instance

/-- The part of the invariant the code actually maintains: every line's
quantity is at least 1. -/
def cartQuantitiesPos (cart : Cart) : Prop :=
  ∀ item ∈ cart, 1 ≤ item.quantity

instance (cart : Cart) : Decidable (cartQuantitiesPos cart) := by
  unfold cartQuantitiesPos; infer_instance

example : handleAddToCart ⟨1, "a", 3, 2, true⟩ [] = [⟨⟨1, "a", 3, 2, true⟩, 1⟩] := by
  decide

example :
    handleAddToCart ⟨1, "a", 3, 2, true⟩ [⟨⟨1, "a", 3, 2, true⟩, 1⟩]
      = [⟨⟨1, "a", 3, 2, true⟩, 2⟩] := by decide

example : handleUpdateCartQuantity 1 0 [⟨⟨1, "a", 3, 2, true⟩, 1⟩] = [] := by decide

example :
    handleUpdateCartQuantity 1 9 [⟨⟨1, "a", 3, 2, true⟩, 1⟩]
      = [⟨⟨1, "a", 3, 2, true⟩, 9⟩] := by decide

example : calculateCartTotal [⟨⟨1, "a", 10, 5, true⟩, 3⟩, ⟨⟨2, "b", 25, 5, true⟩, 2⟩] = 80 := by
  norm_num [calculateCartTotal]

example :
    displayedTotal [⟨⟨1, "a", 10, 5, true⟩, 3⟩, ⟨⟨2, "b", 25, 5, true⟩, 2⟩]
      = 139.60 := by norm_num [displayedTotal, calculateCartTotal]

/-- Claim C1 counterexample: a product that is marked unavailable but has
positive stock IS added to the cart by `handleAddToCart`, which only
checks `stock_quantity > 0`; the cart does change. -/
theorem addToCart_unavailable_changes_cart :
    (⟨1, "Pandesal", 3, 5, false⟩ : Product).is_available = false ∧
      handleAddToCart ⟨1, "Pandesal", 3, 5, false⟩ [] ≠ [] := by decide

/-- Claim C1 (amended): for every product with `stock_quantity == 0`,
`handleAddToCart` leaves every starting cart unchanged; the
`is_available` flag is not checked by the handler (it only disables the
UI button). -/
theorem addToCart_zero_stock_noop (p : Product) (cart : Cart)
    (h : p.stock_quantity = 0) : handleAddToCart p cart = cart := by
  simp [handleAddToCart, h]

/-- Witness for the amended claim C1 at a concrete out-of-stock product
and a concrete non-empty cart. -/
theorem addToCart_zero_stock_noop_witness :
    handleAddToCart ⟨1, "Pandesal", 3, 0, true⟩ [⟨⟨2, "Ensaymada", 25, 9, true⟩, 4⟩]
      = [⟨⟨2, "Ensaymada", 25, 9, true⟩, 4⟩] :=
  addToCart_zero_stock_noop ⟨1, "Pandesal", 3, 0, true⟩ _ rfl

/-- Claim C5: with an empty cart, `handleCheckout` sends nothing to the
backing service, shows the empty-cart notice, and leaves the whole client
state unchanged, whatever the would-be outcome and form data. -/
theorem checkout_empty_cart_rejected_locally (data : CheckoutFormData)
    (outcome : ApiOutcome) (s : ClientState) (h : s.cart = []) :
    handleCheckout data outcome s
      = { state := s, sent := none, toasts := ["Your cart is empty"] } := by
  simp [handleCheckout, h]

/-- Witness for claim C5 at a concrete empty-cart client state. -/
theorem checkout_empty_cart_rejected_locally_witness :
    handleCheckout ⟨"12 Mabini St", none⟩ .success
        ⟨[], true, true, ⟨"12 Mabini St", none⟩⟩
      = { state := ⟨[], true, true, ⟨"12 Mabini St", none⟩⟩
          sent := none
          toasts := ["Your cart is empty"] } :=
  checkout_empty_cart_rejected_locally ⟨"12 Mabini St", none⟩ .success
    ⟨[], true, true, ⟨"12 Mabini St", none⟩⟩ rfl

/-- Claim C10: updating the quantity of a product id that has no line in
the cart leaves the cart unchanged, whether the new quantity triggers the
removal branch or the replacement branch. -/
theorem updateQuantity_absent_id_noop (productId : Nat) (newQuantity : Int)
    (cart : Cart) (h : ∀ item ∈ cart, item.product.id ≠ productId) :
    handleUpdateCartQuantity productId newQuantity cart = cart := by
  unfold handleUpdateCartQuantity handleRemoveFromCart
  by_cases hq : newQuantity < 1
  · simp only [if_pos hq]
    apply List.filter_eq_self.mpr
    intro item hmem
    simpa [bne_iff_ne] using h item hmem
  · simp only [if_neg hq]
    conv_rhs => rw [← List.map_id cart]
    apply List.map_congr_left
    intro item hmem
    simp [beq_iff_eq, h item hmem]

/-- Witness for claim C10 at a concrete cart not containing the id. -/
theorem updateQuantity_absent_id_noop_witness :
    handleUpdateCartQuantity 7 3 [⟨⟨2, "Ensaymada", 25, 9, true⟩, 4⟩]
      = [⟨⟨2, "Ensaymada", 25, 9, true⟩, 4⟩] :=
  updateQuantity_absent_id_noop 7 3 [⟨⟨2, "Ensaymada", 25, 9, true⟩, 4⟩]
    (by decide)

/-- Claim C4 counterexample: when the backing service fails with an empty
error message, the toast shown is the generic fallback text, not the
(empty) error message itself, because of the JavaScript
`error.message || 'Failed to place order'` fallback. -/
theorem checkout_failure_empty_message_not_verbatim :
    (checkoutMutation ⟨"12 Mabini St", none⟩ (.failure "")
          ⟨[⟨⟨1, "Pandesal", 3, 5, true⟩, 2⟩], true, true, ⟨"12 Mabini St", none⟩⟩).toasts
        = ["Failed to place order"] ∧
      ("Failed to place order" : String) ≠ "" := by decide

/-- Claim C4 (amended): order submission is all-or-nothing — on success
the cart becomes empty, the cart dialog closes and the cached order list
is invalidated; on failure the entire client state (cart included) is
exactly as before, and the backing service's error message is surfaced
verbatim whenever it is non-empty (an empty message is replaced by a
generic failure notice). -/
theorem checkout_all_or_nothing (data : CheckoutFormData) (s : ClientState) :
    ((checkoutMutation data .success s).state.cart = [] ∧
      (checkoutMutation data .success s).state.showCart = false ∧
      (checkoutMutation data .success s).state.ordersCacheValid = false) ∧
    ∀ message : String,
      (checkoutMutation data (.failure message) s).state = s ∧
      (message ≠ "" →
        (checkoutMutation data (.failure message) s).toasts = [message]) := by
  refine ⟨⟨rfl, rfl, rfl⟩, ?_⟩
  intro message
  refine ⟨rfl, ?_⟩
  intro hm
  simp [checkoutMutation, hm]

/-- Witness for the amended claim C4 at a concrete state and a concrete
non-empty error message. -/
theorem checkout_all_or_nothing_witness :
    (checkoutMutation ⟨"12 Mabini St", none⟩ (.failure "stock ran out")
          ⟨[⟨⟨1, "Pandesal", 3, 5, true⟩, 2⟩], true, true, ⟨"12 Mabini St", none⟩⟩).state
        = ⟨[⟨⟨1, "Pandesal", 3, 5, true⟩, 2⟩], true, true, ⟨"12 Mabini St", none⟩⟩ ∧
      (checkoutMutation ⟨"12 Mabini St", none⟩ (.failure "stock ran out")
          ⟨[⟨⟨1, "Pandesal", 3, 5, true⟩, 2⟩], true, true, ⟨"12 Mabini St", none⟩⟩).toasts
        = ["stock ran out"] := by
  have h := (checkout_all_or_nothing ⟨"12 Mabini St", none⟩
    ⟨[⟨⟨1, "Pandesal", 3, 5, true⟩, 2⟩], true, true, ⟨"12 Mabini St", none⟩⟩).2
    "stock ran out"
  exact ⟨h.1, h.2 (by decide)⟩

/-- Claim C2 counterexample: `handleUpdateCartQuantity` does NOT clamp
the new quantity to the product's stock: asking for 10 of a product with
stock 5 stores quantity 10, violating the claimed clamp to
`[1, stock_quantity]`. -/
theorem updateQuantity_no_upper_clamp :
    handleUpdateCartQuantity 1 10 [⟨⟨1, "Pandesal", 3, 5, true⟩, 2⟩]
        = [⟨⟨1, "Pandesal", 3, 5, true⟩, 10⟩] ∧
      ¬ cartInvariant (handleUpdateCartQuantity 1 10
          [⟨⟨1, "Pandesal", 3, 5, true⟩, 2⟩]) := by decide

/-- Claim C2 (amended): `handleUpdateCartQuantity` with a quantity below
1 behaves exactly like `handleRemoveFromCart`, so the id's lines are
gone; with a quantity of at least 1 it replaces the quantity of every
line for that id with `newQuantity` as given — without clamping it to the
product's stock — and leaves all other lines unchanged. -/
theorem updateQuantity_remove_or_replace (productId : Nat)
    (newQuantity : Int) (cart : Cart) :
    (newQuantity < 1 →
      handleUpdateCartQuantity productId newQuantity cart
          = handleRemoveFromCart productId cart ∧
        ∀ item ∈ handleUpdateCartQuantity productId newQuantity cart,
          item.product.id ≠ productId) ∧
    (1 ≤ newQuantity →
      ∀ i : Nat,
        (handleUpdateCartQuantity productId newQuantity cart)[i]?
          = (cart[i]?).map fun item =>
              if item.product.id = productId then
                { item with quantity := newQuantity }
              else item) := by
  constructor
  · intro hq
    refine ⟨by simp [handleUpdateCartQuantity, hq], ?_⟩
    intro item hmem
    simp only [handleUpdateCartQuantity, if_pos hq, handleRemoveFromCart,
      List.mem_filter, bne_iff_ne] at hmem
    exact hmem.2
  · intro hq i
    have hq2 : ¬ newQuantity < 1 := not_lt.mpr hq
    simp only [handleUpdateCartQuantity, if_neg hq2, List.getElem?_map]
    cases cart[i]? with
    | none => rfl
    | some item => simp [beq_iff_eq]

/-- Witness for the amended claim C2: both branches evaluated at a
concrete cart. -/
theorem updateQuantity_remove_or_replace_witness :
    (handleUpdateCartQuantity 1 0 [⟨⟨1, "Pandesal", 3, 5, true⟩, 2⟩]
        = handleRemoveFromCart 1 [⟨⟨1, "Pandesal", 3, 5, true⟩, 2⟩]) ∧
      (handleUpdateCartQuantity 1 4 [⟨⟨1, "Pandesal", 3, 5, true⟩, 2⟩])[0]?
        = some ⟨⟨1, "Pandesal", 3, 5, true⟩, 4⟩ := by
  have h1 := (updateQuantity_remove_or_replace 1 0
    [⟨⟨1, "Pandesal", 3, 5, true⟩, 2⟩]).1 (by decide)
  have h2 := (updateQuantity_remove_or_replace 1 4
    [⟨⟨1, "Pandesal", 3, 5, true⟩, 2⟩]).2 (by decide) 0
  rw [h2]
  exact ⟨h1.1, by decide⟩

/-- Claim C7: for an in-stock product, adding to a cart that already has
a line for it bumps that line's quantity by 1 (positionally: every entry
is unchanged except the lines for this id, whose quantity grows by 1, and
the length is unchanged); adding to a cart without such a line appends a
fresh line with quantity 1; and adding twice to the empty cart gives
exactly one line with quantity 2. -/
theorem addToCart_increment_or_insert (p : Product) (cart : Cart)
    (h : 0 < p.stock_quantity) :
    ((∃ item ∈ cart, item.product.id = p.id) →
      (handleAddToCart p cart).length = cart.length ∧
      ∀ i : Nat,
        (handleAddToCart p cart)[i]?
          = (cart[i]?).map fun item =>
              if item.product.id = p.id then
                { item with quantity := item.quantity + 1 }
              else item) ∧
    ((¬ ∃ item ∈ cart, item.product.id = p.id) →
      handleAddToCart p cart = cart ++ [{ product := p, quantity := 1 }]) ∧
    handleAddToCart p (handleAddToCart p [])
      = [{ product := p, quantity := 2 }] := by
  have hmain : ∀ c : Cart, handleAddToCart p c = addToCartMutation p c := by
    intro c; simp [handleAddToCart, h]
  refine ⟨?_, ?_, ?_⟩
  · rintro ⟨item0, hmem, hid⟩
    have hfind : (cart.find? (fun item => item.product.id == p.id)).isSome := by
      rw [List.find?_isSome]
      exact ⟨item0, hmem, by simp [hid]⟩
    obtain ⟨it, hit⟩ := Option.isSome_iff_exists.mp hfind
    rw [hmain]
    unfold addToCartMutation
    rw [hit]
    refine ⟨by simp, ?_⟩
    intro i
    rw [List.getElem?_map]
    cases cart[i]? with
    | none => rfl
    | some item => simp [beq_iff_eq]
  · intro hnex
    have hfind : cart.find? (fun item => item.product.id == p.id) = none := by
      rw [List.find?_eq_none]
      intro x hx
      simp only [beq_iff_eq]
      intro hxe
      exact hnex ⟨x, hx, hxe⟩
    rw [hmain]
    unfold addToCartMutation
    rw [hfind]
  · rw [hmain, hmain]
    unfold addToCartMutation
    simp [List.find?]

/-- Witness for claim C7: the double-add scenario evaluated at a concrete
in-stock product. -/
theorem addToCart_increment_or_insert_witness :
    handleAddToCart ⟨1, "Pandesal", 3, 5, true⟩
        (handleAddToCart ⟨1, "Pandesal", 3, 5, true⟩ [])
      = [{ product := ⟨1, "Pandesal", 3, 5, true⟩, quantity := 2 }] :=
  (addToCart_increment_or_insert ⟨1, "Pandesal", 3, 5, true⟩ [] (by decide)).2.2


/-- Unfolding helper: the cart's `reduce` with an arbitrary accumulator
equals the accumulator plus the sum of per-line subtotals. -/
theorem calculateCartTotal_foldl_aux (cart : Cart) (a : ℚ) :
    cart.foldl (fun total item => total + item.product.price * (item.quantity : ℚ)) a
      = a + (cart.map fun item => item.product.price * (item.quantity : ℚ)).sum := by
  induction cart generalizing a with
  | nil => simp
  | cons x xs ih =>
    simp only [List.foldl_cons, List.map_cons, List.sum_cons, ih]
    ring

/-- Claim C6: for every non-empty cart the displayed subtotal is the sum
of `price * quantity` over the lines, the tax line is 12% of the
subtotal, the delivery fee is 50, and the displayed total is
`subtotal + 50 + 0.12 * subtotal`; at the Pandesal/Ensaymada sample cart
these come to 80.00, 9.60, 50.00 and 139.60. -/
theorem cart_totals_formula (cart : Cart) (_h : cart ≠ []) :
    (calculateCartTotal cart
        = (cart.map fun item => item.product.price * (item.quantity : ℚ)).sum ∧
      displayedTax cart = 0.12 * calculateCartTotal cart ∧
      deliveryFee = 50 ∧
      displayedTotal cart
        = calculateCartTotal cart + 50 + 0.12 * calculateCartTotal cart) ∧
    (calculateCartTotal
          [⟨⟨1, "Pandesal", 10, 9, true⟩, 3⟩, ⟨⟨2, "Ensaymada", 25, 9, true⟩, 2⟩]
        = 80 ∧
      displayedTax
          [⟨⟨1, "Pandesal", 10, 9, true⟩, 3⟩, ⟨⟨2, "Ensaymada", 25, 9, true⟩, 2⟩]
        = 9.60 ∧
      deliveryFee = 50 ∧
      displayedTotal
          [⟨⟨1, "Pandesal", 10, 9, true⟩, 3⟩, ⟨⟨2, "Ensaymada", 25, 9, true⟩, 2⟩]
        = 139.60) := by
  refine ⟨⟨?_, ?_, rfl, ?_⟩, ?_, ?_, rfl, ?_⟩
  · simpa using calculateCartTotal_foldl_aux cart 0
  · unfold displayedTax; ring
  · unfold displayedTotal; ring
  · norm_num [calculateCartTotal]
  · norm_num [displayedTax, calculateCartTotal]
  · norm_num [displayedTotal, calculateCartTotal]

/-- Witness for claim C6: the formulas instantiated at the (non-empty)
sample cart. -/
theorem cart_totals_formula_witness :
    displayedTotal
        [⟨⟨1, "Pandesal", 10, 9, true⟩, 3⟩, ⟨⟨2, "Ensaymada", 25, 9, true⟩, 2⟩]
      = calculateCartTotal
          [⟨⟨1, "Pandesal", 10, 9, true⟩, 3⟩, ⟨⟨2, "Ensaymada", 25, 9, true⟩, 2⟩]
        + 50
        + 0.12 * calculateCartTotal
            [⟨⟨1, "Pandesal", 10, 9, true⟩, 3⟩, ⟨⟨2, "Ensaymada", 25, 9, true⟩, 2⟩] :=
  (cart_totals_formula
    [⟨⟨1, "Pandesal", 10, 9, true⟩, 3⟩, ⟨⟨2, "Ensaymada", 25, 9, true⟩, 2⟩]
    (by decide)).1.2.2.2

/-- Claim C3 counterexample: the upper half of the invariant is not
preserved — a cart holding the last unit of a product satisfies the
invariant, but adding the same product again raises the quantity to 2
with stock still 1. -/
theorem cart_invariant_broken_by_add :
    cartInvariant [⟨⟨1, "Pandesal", 3, 1, true⟩, 1⟩] ∧
      ¬ cartInvariant
          (handleAddToCart ⟨1, "Pandesal", 3, 1, true⟩
            [⟨⟨1, "Pandesal", 3, 1, true⟩, 1⟩]) := by decide

/-- Single-step helper: each cart operation keeps every line's quantity
at least 1. -/
theorem quantitiesPos_applyCartOp (cart : Cart) (op : CartOp)
    (h : cartQuantitiesPos cart) : cartQuantitiesPos (applyCartOp cart op) := by
  cases op with
  | add p =>
    simp only [applyCartOp, handleAddToCart]
    by_cases hs : 0 < p.stock_quantity
    · simp only [if_pos hs]
      unfold addToCartMutation
      cases hfind : cart.find? (fun item => item.product.id == p.id) with
      | some it =>
        intro item hmem
        rw [List.mem_map] at hmem
        obtain ⟨pre, hpre, heq⟩ := hmem
        subst heq
        by_cases hid : pre.product.id = p.id
        · have hq := h pre hpre
          simp only [hid, beq_self_eq_true, if_true]
          omega
        · simpa [hid] using h pre hpre
      | none =>
        intro item hmem
        rw [List.mem_append] at hmem
        rcases hmem with hmem | hmem
        · exact h item hmem
        · simp only [List.mem_singleton] at hmem
          subst hmem
          exact le_refl 1
    · simpa [if_neg hs] using h
  | update productId newQuantity =>
    simp only [applyCartOp]
    unfold handleUpdateCartQuantity
    by_cases hq : newQuantity < 1
    · simp only [if_pos hq]
      intro item hmem
      unfold handleRemoveFromCart at hmem
      exact h item (List.mem_of_mem_filter hmem)
    · simp only [if_neg hq]
      intro item hmem
      rw [List.mem_map] at hmem
      obtain ⟨pre, hpre, heq⟩ := hmem
      subst heq
      by_cases hid : pre.product.id = productId
      · simp only [hid, beq_self_eq_true, if_true]
        omega
      · simpa [hid] using h pre hpre
  | remove productId =>
    simp only [applyCartOp]
    unfold handleRemoveFromCart
    intro item hmem
    exact h item (List.mem_of_mem_filter hmem)
  | clear =>
    intro item hmem
    simp only [applyCartOp] at hmem
    simp at hmem

/-- Claim C3 (amended): starting from a cart whose line quantities are
all at least 1, any sequence of cart operations preserves that lower
bound; the claimed upper bound (quantity at most the product's stock) is
NOT preserved, since `addToCart` increments past the stock and
`handleUpdateCartQuantity` stores any requested quantity at least 1. -/
theorem cart_ops_preserve_positive_quantities (cart : Cart)
    (ops : List CartOp) (h : cartQuantitiesPos cart) :
    cartQuantitiesPos (applyCartOps cart ops) := by
  induction ops generalizing cart with
  | nil => exact h
  | cons op rest ih => exact ih _ (quantitiesPos_applyCartOp cart op h)

/-- Witness for the amended claim C3 at a concrete cart and a concrete
operation sequence exercising all four operations. -/
theorem cart_ops_preserve_positive_quantities_witness :
    cartQuantitiesPos
      (applyCartOps [⟨⟨1, "Pandesal", 3, 5, true⟩, 1⟩]
        [.add ⟨1, "Pandesal", 3, 5, true⟩, .update 1 4,
          .add ⟨2, "Ensaymada", 25, 9, true⟩, .remove 1, .clear,
          .add ⟨1, "Pandesal", 3, 5, true⟩]) :=
  cart_ops_preserve_positive_quantities [⟨⟨1, "Pandesal", 3, 5, true⟩, 1⟩]
    [.add ⟨1, "Pandesal", 3, 5, true⟩, .update 1 4,
      .add ⟨2, "Ensaymada", 25, 9, true⟩, .remove 1, .clear,
      .add ⟨1, "Pandesal", 3, 5, true⟩] (by decide)

/-- Claim C8: deactivating a user and then activating them yields
`is_active = true` and leaves every other field (id, name, email,
username, phone, address, role) exactly as before; moreover the activate
payload really is a partial update carrying only the `is_active` flag,
and a user who was active to begin with is restored verbatim. -/
theorem deactivate_then_activate_restores (u : User) :
    (handleActivateUser (deactivateUser u)).is_active = true ∧
    (handleActivateUser (deactivateUser u)).id = u.id ∧
    (handleActivateUser (deactivateUser u)).full_name = u.full_name ∧
    (handleActivateUser (deactivateUser u)).email = u.email ∧
    (handleActivateUser (deactivateUser u)).username = u.username ∧
    (handleActivateUser (deactivateUser u)).phone = u.phone ∧
    (handleActivateUser (deactivateUser u)).address = u.address ∧
    (handleActivateUser (deactivateUser u)).role = u.role ∧
    (activateUserPayload.full_name = none ∧ activateUserPayload.email = none ∧
      activateUserPayload.username = none ∧ activateUserPayload.phone = none ∧
      activateUserPayload.address = none ∧ activateUserPayload.role = none ∧
      activateUserPayload.is_active = some true) ∧
    (u.is_active = true → handleActivateUser (deactivateUser u) = u) := by
  refine ⟨rfl, rfl, rfl, rfl, rfl, rfl, rfl, rfl,
    ⟨rfl, rfl, rfl, rfl, rfl, rfl, rfl⟩, ?_⟩
  intro hact
  cases u with
  | mk id fn em un ph ad ro act =>
    cases hact
    rfl

/-- Witness for claim C8 at a concrete initially-active user. -/
theorem deactivate_then_activate_restores_witness :
    handleActivateUser
        (deactivateUser ⟨7, "Gab B", "gab@bakery.ph", "gab1",
          some "0917", none, "baker", true⟩)
      = ⟨7, "Gab B", "gab@bakery.ph", "gab1", some "0917", none, "baker", true⟩ :=
  (deactivate_then_activate_restores
    ⟨7, "Gab B", "gab@bakery.ph", "gab1", some "0917", none, "baker", true⟩
    ).2.2.2.2.2.2.2.2.2 rfl

/-- Claim C9 counterexample: for an authenticated user whose email is the
empty string, `handleCreateProduct` sends the sentinel baker email, not
the user's email (JavaScript `||` treats the empty string as falsy). -/
theorem createProduct_empty_email_gets_sentinel :
    (handleCreateProduct
          (some ⟨7, "Gab B", "", "gab1", none, none, "baker", true⟩)
          ⟨"Pandesal", "", 3, "", 5, "Bread"⟩).baker_email
        = "default@baker.com" ∧
      (⟨7, "Gab B", "", "gab1", none, none, "baker", true⟩ : User).email
        ≠ "default@baker.com" := by decide

/-- Claim C9 (amended): with no authenticated user — or with an
authenticated user whose email is the empty string — the creation request
carries the sentinel `default@baker.com`; with a non-empty email it
carries the authenticated user's email; in every case the request is
built with the submitted form data, i.e. creation proceeds and is never
rejected for missing authentication. -/
theorem createProduct_baker_email_fallback (user : Option User)
    (data : ProductFormData) :
    (user = none →
      (handleCreateProduct user data).baker_email = "default@baker.com") ∧
    (∀ u : User, user = some u → u.email = "" →
      (handleCreateProduct user data).baker_email = "default@baker.com") ∧
    (∀ u : User, user = some u → u.email ≠ "" →
      (handleCreateProduct user data).baker_email = u.email) ∧
    (handleCreateProduct user data).data = data := by
  refine ⟨?_, ?_, ?_, rfl⟩
  · intro h
    subst h
    rfl
  · intro u h he
    subst h
    simp [handleCreateProduct, bakerEmailFor, he]
  · intro u h he
    subst h
    simp [handleCreateProduct, bakerEmailFor, he]

/-- Witness for the amended claim C9: the unauthenticated case and the
authenticated non-empty-email case at concrete inputs. -/
theorem createProduct_baker_email_fallback_witness :
    (handleCreateProduct none ⟨"Pandesal", "", 3, "", 5, "Bread"⟩).baker_email
        = "default@baker.com" ∧
      (handleCreateProduct
          (some ⟨7, "Gab B", "gab@bakery.ph", "gab1", none, none, "baker", true⟩)
          ⟨"Pandesal", "", 3, "", 5, "Bread"⟩).baker_email
        = "gab@bakery.ph" := by
  have h1 := (createProduct_baker_email_fallback none
    ⟨"Pandesal", "", 3, "", 5, "Bread"⟩).1 rfl
  have h2 := (createProduct_baker_email_fallback
    (some ⟨7, "Gab B", "gab@bakery.ph", "gab1", none, none, "baker", true⟩)
    ⟨"Pandesal", "", 3, "", 5, "Bread"⟩).2.2.1
    ⟨7, "Gab B", "gab@bakery.ph", "gab1", none, none, "baker", true⟩ rfl
    (by decide)
  exact ⟨h1, h2⟩
